/-
  Verification of the ISP customer-support conversation state machine
  (src/isp-agents) against its specification.

  Shallow embedding notes:
  * LangChain messages (HumanMessage / AIMessage / ToolMessage) become the
    inductive `Msg`; a tool call record becomes `ToolCall`.
  * The LangGraph `AgentState` TypedDict becomes the structure `AgentState`;
    a node's returned partial state dict becomes `StateUpdate`, where an
    outer `Option` on a field records whether the key is present in the
    returned dict.  `applyUpdate` is the LangGraph reducer: `messages` is
    annotated with `operator.add` (list concatenation), the other fields
    are overwritten when the key is present.
  * The language model is an external oracle.  Prompt construction in the
    source is pure string interpolation of the arguments captured by the
    constructors of `Prompt`; a model binding is a function `Prompt → AIResp`
    (or, where the call sits inside a `try`, the response is passed as an
    `Except String AIResp`).  Each `Prompt` constructor corresponds to one
    f-string in the source and carries exactly the data interpolated there.
  * Python `phrase in text.lower()` becomes `pyIn phrase (pyLower text)`.
-/
import Mathlib

namespace ISPAgents

/-! ### Python substring test (`pat in hay`) -/

/-- `charListPre pat hay` — `hay` starts with `pat` (Bool). -/
def charListPre : List Char → List Char → Bool
  | [], _ => true
  | _ :: _, [] => false
  | a :: as, b :: bs => a == b && charListPre as bs

/-- `charListSub pat hay` — `pat` occurs contiguously in `hay` (Bool). -/
def charListSub (pat : List Char) : List Char → Bool
  | [] => pat.isEmpty
  | b :: bs => charListPre pat (b :: bs) || charListSub pat bs

/-- Python's `pat in hay` on strings. -/
def pyIn (pat hay : String) : Bool :=
  charListSub pat.data hay.data

/-- Python's `str.lower()`, characterwise (the source only lowers ASCII
text before matching ASCII phrase literals). -/
def pyLower (s : String) : String :=
  ⟨s.data.map Char.toLower⟩

/-- `any(phrase in content.lower() for phrase in phrases)` with already
lowercase phrase literals, as used throughout the source. -/
def containsAnyLower (content : String) (phrases : List String) : Bool :=
  phrases.any (fun p => pyIn p (pyLower content))

/-! ### Account Directory (src/isp-agents/tools/customer_info.py) -/

/-- One record of `MOCK_CUSTOMER_DB`. -/
structure CustomerRecord where
  account_id : String
  name : String
  address : String
  service_plan : String
  modem_mac : String
  status : String
  outage : String
deriving Repr, DecidableEq

/-- The `"12345"` record (Alice Wonderland). -/
def aliceRec : CustomerRecord :=
  { account_id := "12345", name := "Alice Wonderland",
    address := "123 Rabbit Hole Lane", service_plan := "FiberOptic 500Mbps",
    modem_mac := "AA:BB:CC:00:11:22", status := "Active", outage := "Yes" }

/-- The `"67890"` record (Bob The Builder). -/
def bobRec : CustomerRecord :=
  { account_id := "67890", name := "Bob The Builder",
    address := "456 Construction Way", service_plan := "Cable 100Mbps",
    modem_mac := "DD:EE:FF:33:44:55", status := "Active", outage := "No" }

/-- The `"55555"` record (Charlie Chaplin). -/
def charlieRec : CustomerRecord :=
  { account_id := "55555", name := "Charlie Chaplin",
    address := "789 Silent Film Ave", service_plan := "DSL 50Mbps",
    modem_mac := "GG:HH:II:66:77:88", status := "Suspended (Payment)", outage := "Yes" }

/-- `MOCK_CUSTOMER_DB`, as an association list. -/
def MOCK_CUSTOMER_DB : List (String × CustomerRecord) :=
  [("12345", aliceRec), ("67890", bobRec), ("55555", charlieRec)]

/-- `get_customer_info`: `MOCK_CUSTOMER_DB.get(account_id)` — returns the
customer data or `none` if not found.  Pure lookup, no mutation. -/
def get_customer_info (account_id : String) : Option CustomerRecord :=
  (MOCK_CUSTOMER_DB.find? (fun p => p.1 == account_id)).map Prod.snd

/-- `customer_lookup_tool`: calls `get_customer_info` and renders a summary
string for the LLM (the full dict is stored separately by the caller). -/
def customer_lookup_tool (account_id : String) : String :=
  match get_customer_info account_id with
  | some d =>
      "Successfully found customer: Name: " ++ d.name ++ ", Plan: " ++
        d.service_plan ++ ", Status: " ++ d.status ++ "."
  | none =>
      "Customer account ID \x27" ++ account_id ++ "\x27 not found in the system."

/-! ### Messages and state (src/isp-agents/constants.py) -/

/-- One entry of an `AIMessage.tool_calls` list: `{id, name, args}`;
`args` holds at most an `account_id` string (`args.get('account_id')`). -/
structure ToolCall where
  id : String
  name : String
  account_id : Option String
deriving Repr, DecidableEq

/-- A LangChain message: `HumanMessage`, `AIMessage` (content plus
`tool_calls`), or `ToolMessage` (content, tool `name`, `tool_call_id`). -/
inductive Msg where
  | human (content : String)
  | ai (content : String) (tool_calls : List ToolCall)
  | tool (content : String) (name : String) (tool_call_id : String)
deriving Repr, DecidableEq

/-- `AgentState` (constants.py): the graph state.  `messages` is annotated
with `operator.add`; `user_info` holds the dict from `get_customer_info`;
`next_node` is the router's decision.  (`issue_type` and
`requires_tool_call` are declared in the source but never read or written
by any node, so they are omitted.) -/
structure AgentState where
  messages : List Msg
  user_info : Option CustomerRecord
  next_node : Option String
deriving Repr, DecidableEq

/-- A node's returned partial state dict.  An outer `some` means the key is
present in the dict (possibly with value `None`, i.e. inner `none`). -/
structure StateUpdate where
  messages : List Msg := []
  user_info : Option (Option CustomerRecord) := none
  next_node : Option (Option String) := none
deriving Repr, DecidableEq

/-- The LangGraph reducer: `messages` accumulates by `operator.add`
(list concatenation); `user_info` and `next_node` are overwritten when the
returned dict carries the key. -/
def applyUpdate (s : AgentState) (u : StateUpdate) : AgentState :=
  { messages := s.messages ++ u.messages
    user_info := match u.user_info with
                 | some v => v
                 | none => s.user_info
    next_node := match u.next_node with
                 | some v => v
                 | none => s.next_node }

/-- Fold a sequence of node updates over a state. -/
def applyUpdates (s : AgentState) (us : List StateUpdate) : AgentState :=
  us.foldl applyUpdate s

/-- `langgraph.graph.END`. -/
def END : String := "__end__"

/-- `isinstance(m, HumanMessage)` on an optional last message. -/
def isHumanMessage : Option Msg → Bool
  | some (Msg.human _) => true
  | _ => false

/-- `isinstance(m, ToolMessage)` on an optional last message. -/
def isToolMessage : Option Msg → Bool
  | some (Msg.tool _ _ _) => true
  | _ => false

/-! ### Language-model oracle -/

/-- A model response: free text plus an optional structured tool-call list
(`AIMessage.content` and `AIMessage.tool_calls`). -/
structure AIResp where
  content : String
  tool_calls : List ToolCall
deriving Repr, DecidableEq

/-- The `AIMessage` a model response is appended as. -/
def aiOf (r : AIResp) : Msg := Msg.ai r.content r.tool_calls

/-- The prompts built by `CustomerInteractionAgent.interact`.  Each
constructor is one f-string of the source and carries exactly the values
interpolated into it (the rendered string is a pure function of these). -/
inductive Prompt where
  /-- lines 73-79: acknowledge a successful lookup (tool result text and
  the conversation history are interpolated). -/
  | ackSuccess (tool_result : String) (history : List Msg)
  /-- lines 85-90: the lookup failed — inform the user the account ID was
  not found and ask for a valid account ID. -/
  | lookupFailed (tool_result : String) (history : List Msg)
  /-- lines 108-111: converse with an already verified customer (name and
  service plan of `user_info` are interpolated). -/
  | verifiedChat (history : List Msg) (info : CustomerRecord)
  /-- lines 117-130: classification prompt over the latest user message —
  answer directly, ask for an account ID, or call the lookup tool. -/
  | identify (history : List Msg) (last_content : String)
deriving Repr, DecidableEq

/-! ### CustomerInteractionAgent
(src/isp-agents/agents/customer_interaction_agent.py) -/

/-- The waiting-message phrase list of `interact` (line 36). -/
def waiting_phrases : List String :=
  ["account id", "account number", "could you please provide", "waiting for",
   "need your", "clarify", "what is", "tell me"]

/-- Lines 32-41: the router explicitly sent us back here
(`previous_decision == "customer_interaction_agent"`), the last message is
not a `ToolMessage`, and it is an `AIMessage` whose lowered content
contains a waiting phrase — pass the turn. -/
def pass_turn_check (previous_decision : Option String)
    (last_message : Option Msg) : Bool :=
  previous_decision == some "customer_interaction_agent"
    && !(isToolMessage last_message)
    && (match last_message with
        | some (Msg.ai c _) => containsAnyLower c waiting_phrases
        | _ => false)

/-- Lines 50-57: scan backward for the `AIMessage` carrying a tool call
whose `id` equals the `ToolMessage.tool_call_id` and whose name is
`customer_lookup_tool`.  An `AIMessage` whose matching-id call has a
different tool name does not stop the scan (the `break` is guarded by the
name check). -/
def findMatchingCallRev (tcid : String) : List Msg → Option ToolCall
  | [] => none
  | Msg.ai _ tcs :: rest =>
      if tcs.isEmpty then findMatchingCallRev tcid rest
      else
        match tcs.find? (fun tc => tc.id == tcid) with
        | some mc =>
            if mc.name == "customer_lookup_tool" then some mc
            else findMatchingCallRev tcid rest
        | none => findMatchingCallRev tcid rest
  | _ :: rest => findMatchingCallRev tcid rest

/-- `for msg in reversed(current_messages[:-1]): ...` — the backward scan
over the history (everything before the tool-result turn). -/
def findMatchingCall (history : List Msg) (tcid : String) : Option ToolCall :=
  findMatchingCallRev tcid history.reverse

/-- Lines 59-66: extract `account_id` from the matching call (if any) and
re-fetch the actual record with `get_customer_info` (`if account_id:` is
Python truthiness, so an empty-string id skips the fetch). -/
def retrieveFromHistory (history : List Msg) (tcid : String) :
    Option CustomerRecord :=
  match findMatchingCall history tcid with
  | some tc =>
      match tc.account_id with
      | some a => if a.isEmpty then none else get_customer_info a
      | none => none
  | none => none

/-- `Msg.content`. -/
def msgContent : Msg → String
  | Msg.human c => c
  | Msg.ai c _ => c
  | Msg.tool c _ _ => c

/-- Lines 44-95: the tool-result branch of `interact`.  On a successful
re-fetch, store the record in `user_info` and append the model's
acknowledgement; otherwise set `user_info` to `None` and append the
model's not-found apology. -/
def handleToolResult (state : AgentState) (llm : Prompt → AIResp)
    (content tcid : String) : StateUpdate :=
  match retrieveFromHistory state.messages.dropLast tcid with
  | some data =>
      { user_info := some (some data)
        messages := [aiOf (llm (Prompt.ackSuccess content state.messages))] }
  | none =>
      { user_info := some none
        messages := [aiOf (llm (Prompt.lookupFailed content state.messages))] }

/-- Lines 98-137: the standard interaction flow.  With a verified customer,
a plain conversational reply; otherwise the identification prompt with the
lookup tool bound, and `next_node` cleared. -/
def standardInteraction (state : AgentState)
    (llm llmTools : Prompt → AIResp) : StateUpdate :=
  match state.user_info with
  | some info =>
      { messages := [aiOf (llm (Prompt.verifiedChat state.messages info))] }
  | none =>
      { messages := [aiOf (llmTools (Prompt.identify state.messages
          (match state.messages.getLast? with
           | some m => msgContent m
           | none => "")))]
        next_node := some none }

/-- `CustomerInteractionAgent.interact`.  `llm` is the plain model binding,
`llmTools` the binding with `customer_lookup_tool` attached; both are
deterministic oracles from the constructed prompt. -/
def interact (state : AgentState) (llm llmTools : Prompt → AIResp) :
    StateUpdate :=
  let last_message := state.messages.getLast?
  if pass_turn_check state.next_node last_message then
    { next_node := some none }
  else
    match last_message with
    | some (Msg.tool content name tcid) =>
        if name == "customer_lookup_tool" then
          handleToolResult state llm content tcid
        else
          standardInteraction state llm llmTools
    | _ => standardInteraction state llm llmTools

/-! ### AgentRouter (src/isp-agents/routing/router.py) -/

/-- The closing-phrase list of the router's no-tool-call fallback
(line 72). -/
def closing_phrases : List String :=
  ["anything else", "how else can i help", "need more help"]

/-- The identification-request phrase list of the override rule
(line 88). -/
def id_request_phrases : List String :=
  ["account id", "account number", "verify"]

/-- Lines 87-91: the override check — the last conversation message is an
`AIMessage` whose lowered content contains an identification-request
phrase, and the selected routing tool is neither
`RouteToGeneralInteraction` nor `RouteToEnd`. -/
def overrideCheck (last_message : Option Msg) (tool_name : String) : Bool :=
  (match last_message with
   | some (Msg.ai c _) => containsAnyLower c id_request_phrases
   | _ => false)
    && !(tool_name == "RouteToGeneralInteraction"
          || tool_name == "RouteToEnd")

/-- `AgentRouter.route_request`.  The routing model call sits inside a
`try`: its outcome is passed as `modelResp`, where `Except.error` is a
raised exception (lines 113-116 catch it and fall back to
`customer_interaction_agent`).  With no tool call, the fallback inspects
the routing response's own text for closing phrases (lines 61-78); with a
tool call, the override rule and the five-way label map apply
(lines 81-111). -/
def route_request (state : AgentState) (modelResp : Except String AIResp) :
    StateUpdate :=
  let last_message := state.messages.getLast?
  match modelResp with
  | Except.error _ => { next_node := some (some "customer_interaction_agent") }
  | Except.ok ai_msg =>
      match ai_msg.tool_calls with
      | [] =>
          { next_node := some (some
              (if isHumanMessage last_message then "customer_interaction_agent"
               else if containsAnyLower ai_msg.content closing_phrases then
                 "customer_interaction_agent"
               else END)) }
      | tool_call :: _ =>
          let tool_name := tool_call.name
          let tool_name :=
            if overrideCheck last_message tool_name then
              "RouteToGeneralInteraction"
            else tool_name
          { next_node := some (some
              (if tool_name == "RouteToBilling" then "billing_agent"
               else if tool_name == "RouteToTechSupport" then
                 "tech_support_agent"
               else if tool_name == "RouteToOutageCheck" then "outage_agent"
               else if tool_name == "RouteToGeneralInteraction" then
                 "customer_interaction_agent"
               else if tool_name == "RouteToEnd" then END
               else "customer_interaction_agent")) }

/-! ### Specialist handlers (src/isp-agents/agents/) -/

/-- `BillingAgent.interact` (billing_agent.py).  With no `user_info`, ask
for the Account ID; otherwise reference the stored name and service plan.
(`user_info.get('name', 'Customer')` and `.get('service_plan', 'current')`
always find their keys here, since records come whole from
`get_customer_info`.) -/
def BillingAgent_interact (state : AgentState) : StateUpdate :=
  match state.user_info with
  | none =>
      { messages := [Msg.ai ("To help with your billing query, I need to " ++
          "verify your account. Could you please provide your Account ID?") []] }
  | some info =>
      { messages := [Msg.ai ("Okay " ++ info.name ++ ", I see you\x27re on the " ++
          info.service_plan ++ " plan. Let\x27s look into that bill. " ++
          "(Billing Agent is under construction)") []] }

/-- `TechSupportAgent.interact` (tech_support_agent.py). -/
def TechSupportAgent_interact (state : AgentState) : StateUpdate :=
  match state.user_info with
  | none =>
      { messages := [Msg.ai ("To troubleshoot your internet issue, I need to " ++
          "access your account details. Could you please provide your Account ID?") []] }
  | some info =>
      { messages := [Msg.ai ("Alright " ++ info.name ++ ", let\x27s check the " ++
          "status for your modem (" ++ info.modem_mac ++ "). " ++
          "(Tech Support Agent is under construction)") []] }

/-- `OutageAgent.interact` (outage_agent.py).  The body reads the local
variable `user_info` (`if not user_info:`) but the assignment
`user_info = state.get('user_info')` present in the other two agents is
missing, so every call raises `NameError` before reaching either branch.
The value bound below is `none` on every path; the `some` branches are the
unreachable remainder of the function body. -/
def OutageAgent_interact (_state : AgentState) : Except String StateUpdate :=
  let boundLocal : Option (Option CustomerRecord) := none
  match boundLocal with
  | none => Except.error "NameError: name \x27user_info\x27 is not defined"
  | some user_info =>
      match user_info with
      | none =>
          Except.ok { messages := [Msg.ai ("To check for outages specific to " ++
            "your location, I need your Account ID first. Could you please " ++
            "provide it?") []] }
      | some info =>
          Except.ok { messages := [Msg.ai ("Okay " ++ info.name ++ ", I will " ++
            "check for reported outages near " ++ info.address ++ ". " ++
            "(Outage Agent is under construction)") []] }

/-! ### Conversation Controller edge (src/isp-agents/isp_agent_system.py) -/

/-- Priority-2 waiting phrases of `decide_after_interaction`
(lines 115-118). -/
def p2_waiting_phrases : List String :=
  ["account id", "account number", "need your", "clarify", "what is",
   "how can i help you today?"]

/-- Priority-3 identification phrases of `decide_after_interaction`
(line 133). -/
def p3_id_phrases : List String :=
  ["account id", "account number", "provide", "verify"]

/-- `decide_after_interaction` (isp_agent_system.py lines 92-147): the
conditional edge out of the interaction node.  Priority 1: an `AIMessage`
with tool calls goes to `execute_tools`.  Priority 2: a verified user who
just spoke, answered by a non-waiting `AIMessage`, goes to
`route_request`.  Priority 3 and the default all end the turn (`END`). -/
def decide_after_interaction (state : AgentState) : String :=
  match state.messages.getLast? with
  | some (Msg.ai c tcs) =>
      if !tcs.isEmpty then "execute_tools"
      else if state.user_info.isSome
              && decide (2 ≤ state.messages.length)
              && isHumanMessage state.messages.dropLast.getLast? then
        if !containsAnyLower c p2_waiting_phrases then "route_request"
        else END
      else
        if state.user_info.isNone && containsAnyLower c p3_id_phrases then END
        else if state.user_info.isSome
                && pyIn "how can i help you today?" (pyLower c) then END
        else if tcs.isEmpty then END
        else END
  | _ => END

/-! ### Concrete fixtures for witnesses and counterexamples -/

/-- A constant model oracle (any deterministic response works for the
state-shape properties). -/
def constLLM : Prompt → AIResp := fun _ => { content := "ok", tool_calls := [] }

/-- A session that just executed a successful lookup for `"12345"`. -/
def successLookupState : AgentState :=
  { messages := [Msg.human "12345",
      Msg.ai "" [{ id := "call1", name := "customer_lookup_tool",
                   account_id := some "12345" }],
      Msg.tool (customer_lookup_tool "12345") "customer_lookup_tool" "call1"]
    user_info := none
    next_node := none }

/-- A session that just executed a failing lookup for `"99999"`, with a
stale verified record still in `user_info`. -/
def failedLookupState : AgentState :=
  { messages := [Msg.human "99999",
      Msg.ai "" [{ id := "call2", name := "customer_lookup_tool",
                   account_id := some "99999" }],
      Msg.tool (customer_lookup_tool "99999") "customer_lookup_tool" "call2"]
    user_info := some aliceRec
    next_node := none }

/-- A malformed history: a lookup result turn with no matching invocation
request anywhere before it. -/
def malformedHistoryState : AgentState :=
  { messages := [Msg.human "hello",
      Msg.tool (customer_lookup_tool "12345") "customer_lookup_tool" "ghost"]
    user_info := some aliceRec
    next_node := none }

/-- A session whose last turn is the assistant asking for an account
identifier. -/
def askIdState : AgentState :=
  { messages := [Msg.human "my internet is slow",
      Msg.ai "Could you please provide your Account ID?" []]
    user_info := none
    next_node := none }

/-- A verified session whose last turn is a user question. -/
def verifiedQueryState : AgentState :=
  { messages := [Msg.human "why is my bill high"]
    user_info := some aliceRec
    next_node := none }

/-- An unverified session (for the specialist ask-for-ID branch). -/
def unverifiedQueryState : AgentState :=
  { messages := [Msg.human "why is my bill high"]
    user_info := none
    next_node := none }

/-- A session whose last conversation turn is an assistant message
containing the closing phrase `"anything else"`. -/
def closingPhraseState : AgentState :=
  { messages := [Msg.human "hi",
      Msg.ai "Is there anything else I can help with?" []]
    user_info := none
    next_node := none }

/-- A routing-model response selecting `RouteToBilling`. -/
def billingSelection : Except String AIResp :=
  Except.ok { content := ""
              tool_calls := [{ id := "r1", name := "RouteToBilling",
                               account_id := none }] }

/-- A routing-model response with no structured selection and no closing
phrase in its own text. -/
def plainSelection : Except String AIResp :=
  Except.ok { content := "ok.", tool_calls := [] }

/-- The phrase list the claim attributes to the router's no-selection
fallback (the source additionally checks `"need more help"`). -/
def claimed_closing_phrases : List String :=
  ["anything else", "how else can i help"]

/-! ## Theorems -/

/-- Claim C1: when the last message is a `customer_lookup_tool` result and
the backward scan finds the matching invocation request carrying
identifier `a` that the Account Directory resolves to record `r`, the
Verification Handler stores exactly `r` — the record `get_customer_info`
returns for `a` — in `user_info`, never a stale or unrelated record. -/
theorem lookup_success_sets_fresh_record
    (state : AgentState) (llm llmTools : Prompt → AIResp)
    (content tcid a : String) (tc : ToolCall) (r : CustomerRecord)
    (hlast : state.messages.getLast?
        = some (Msg.tool content "customer_lookup_tool" tcid))
    (hfind : findMatchingCall state.messages.dropLast tcid = some tc)
    (harg : tc.account_id = some a)
    (hres : get_customer_info a = some r) :
    (interact state llm llmTools).user_info = some (some r)
      ∧ (applyUpdate state (interact state llm llmTools)).user_info
          = get_customer_info a := by
  have hA : a.isEmpty = false := by
    cases hA0 : a.isEmpty with
    | false => rfl
    | true =>
        exfalso
        have ha : a = "" := (String.isEmpty_iff a).mp hA0
        have h0 : get_customer_info "" = none := by decide
        rw [ha, h0] at hres
        cases hres
  have hret : retrieveFromHistory state.messages.dropLast tcid = some r := by
    simp [retrieveFromHistory, hfind, harg, hA, hres]
  have hgoal : interact state llm llmTools
      = handleToolResult state llm content tcid := by
    unfold interact
    rw [hlast]
    simp [pass_turn_check, isToolMessage]
  rw [hgoal]
  unfold handleToolResult
  rw [hret]
  simp [applyUpdate, hres]

/-- Witness for C1: the successful `"12345"` lookup stores the Alice
Wonderland record. -/
theorem lookup_success_sets_fresh_record_witness :
    (interact successLookupState constLLM constLLM).user_info
        = some (some aliceRec)
      ∧ (applyUpdate successLookupState
          (interact successLookupState constLLM constLLM)).user_info
          = get_customer_info "12345" :=
  lookup_success_sets_fresh_record successLookupState constLLM constLLM
    (customer_lookup_tool "12345") "call1" "12345"
    { id := "call1", name := "customer_lookup_tool", account_id := some "12345" }
    aliceRec (by decide) (by decide) rfl (by decide)

/-- Claim C2: while the most recent message is an assistant turn whose text
contains an identification-request phrase, `route_request` never returns a
specialist label — for every possible model response (a structured
selection of any of the five labels, an unknown label, no selection at
all, or a raised error) the decision is `customer_interaction_agent` or
`END`, and a specialist selection is overridden to
`customer_interaction_agent` (GeneralInteraction). -/
theorem router_never_specialist_during_id_request
    (state : AgentState) (resp : Except String AIResp)
    (c : String) (tcs : List ToolCall)
    (hlast : state.messages.getLast? = some (Msg.ai c tcs))
    (hphrase : containsAnyLower c id_request_phrases = true) :
    ((route_request state resp).next_node
        = some (some "customer_interaction_agent")
      ∨ (route_request state resp).next_node = some (some END))
    ∧ (∀ ai tc rest, resp = Except.ok ai → ai.tool_calls = tc :: rest →
        (tc.name = "RouteToBilling" ∨ tc.name = "RouteToTechSupport"
          ∨ tc.name = "RouteToOutageCheck") →
        (route_request state resp).next_node
          = some (some "customer_interaction_agent")) := by
  have hover : ∀ tname, overrideCheck state.messages.getLast? tname
      = !(tname == "RouteToGeneralInteraction" || tname == "RouteToEnd") := by
    intro tname
    rw [hlast]
    simp [overrideCheck, hphrase]
  constructor
  · cases resp with
    | error e => left; rfl
    | ok ai =>
        cases hcalls : ai.tool_calls with
        | nil =>
            simp only [route_request, hcalls]
            rw [hlast]
            by_cases h2 : containsAnyLower ai.content closing_phrases
            · left; simp [isHumanMessage, h2]
            · right; simp [isHumanMessage, h2]
        | cons tc rest =>
            simp only [route_request, hcalls, hover]
            by_cases h1 : tc.name = "RouteToGeneralInteraction"
            · left; simp [h1]
            · by_cases h2 : tc.name = "RouteToEnd"
              · right; simp [beq_iff_eq, h1, h2]
              · left; simp [beq_iff_eq, h1, h2]
  · intro ai tc rest heq hcalls hspec
    subst heq
    simp only [route_request, hcalls, hover]
    rcases hspec with h | h | h <;> simp [beq_iff_eq, h]

/-- Witness for C2: with the assistant asking for an Account ID and the
model selecting `RouteToBilling`, the router stays on
`customer_interaction_agent` or `END`. -/
theorem router_never_specialist_witness :
    (route_request askIdState billingSelection).next_node
        = some (some "customer_interaction_agent")
      ∨ (route_request askIdState billingSelection).next_node
          = some (some END) :=
  (router_never_specialist_during_id_request askIdState billingSelection
    "Could you please provide your Account ID?" [] (by decide) (by decide)).1

/-- Claim C3: when the last message is a `customer_lookup_tool` result
whose matching invocation carries an identifier the Account Directory does
not resolve, the Verification Handler returns an update that sets
`user_info` to `None` — so after the reducer the session holds no verified
customer, regardless of the prior value — and appends exactly the model's
response to the lookup-failed apology prompt. -/
theorem lookup_failure_clears_record
    (state : AgentState) (llm llmTools : Prompt → AIResp)
    (content tcid a : String) (tc : ToolCall)
    (hlast : state.messages.getLast?
        = some (Msg.tool content "customer_lookup_tool" tcid))
    (hfind : findMatchingCall state.messages.dropLast tcid = some tc)
    (harg : tc.account_id = some a)
    (hres : get_customer_info a = none) :
    interact state llm llmTools
        = { user_info := some none
            messages := [aiOf (llm (Prompt.lookupFailed content state.messages))] }
      ∧ (applyUpdate state (interact state llm llmTools)).user_info = none := by
  have hret : retrieveFromHistory state.messages.dropLast tcid = none := by
    cases hA : a.isEmpty with
    | true => simp [retrieveFromHistory, hfind, harg, hA]
    | false => simp [retrieveFromHistory, hfind, harg, hA, hres]
  have hgoal : interact state llm llmTools
      = handleToolResult state llm content tcid := by
    unfold interact
    rw [hlast]
    simp [pass_turn_check, isToolMessage]
  rw [hgoal]
  unfold handleToolResult
  rw [hret]
  simp [applyUpdate]

/-- Witness for C3: a failed `"99999"` lookup clears a previously stored
Alice record. -/
theorem lookup_failure_clears_record_witness :
    interact failedLookupState constLLM constLLM
        = { user_info := some none
            messages := [aiOf (constLLM (Prompt.lookupFailed
              (customer_lookup_tool "99999") failedLookupState.messages))] }
      ∧ (applyUpdate failedLookupState
          (interact failedLookupState constLLM constLLM)).user_info = none :=
  lookup_failure_clears_record failedLookupState constLLM constLLM
    (customer_lookup_tool "99999") "call2" "99999"
    { id := "call2", name := "customer_lookup_tool", account_id := some "99999" }
    (by decide) (by decide) rfl (by decide)

/-- Claim C4: a lookup result with no matching invocation request in the
history (malformed history) takes the same failure branch as an unresolved
lookup — `user_info` is set to `None` and the not-found apology is
produced; nothing is raised and no record is stored. -/
theorem malformed_history_failure
    (state : AgentState) (llm llmTools : Prompt → AIResp)
    (content tcid : String)
    (hlast : state.messages.getLast?
        = some (Msg.tool content "customer_lookup_tool" tcid))
    (hnone : findMatchingCall state.messages.dropLast tcid = none) :
    interact state llm llmTools
        = { user_info := some none
            messages := [aiOf (llm (Prompt.lookupFailed content state.messages))] }
      ∧ (applyUpdate state (interact state llm llmTools)).user_info = none := by
  have hret : retrieveFromHistory state.messages.dropLast tcid = none := by
    simp [retrieveFromHistory, hnone]
  have hgoal : interact state llm llmTools
      = handleToolResult state llm content tcid := by
    unfold interact
    rw [hlast]
    simp [pass_turn_check, isToolMessage]
  rw [hgoal]
  unfold handleToolResult
  rw [hret]
  simp [applyUpdate]

/-- Witness for C4: a lookup result with `tool_call_id` `"ghost"` and no
matching request falls into the failure branch. -/
theorem malformed_history_failure_witness :
    interact malformedHistoryState constLLM constLLM
        = { user_info := some none
            messages := [aiOf (constLLM (Prompt.lookupFailed
              (customer_lookup_tool "12345") malformedHistoryState.messages))] }
      ∧ (applyUpdate malformedHistoryState
          (interact malformedHistoryState constLLM constLLM)).user_info = none :=
  malformed_history_failure malformedHistoryState constLLM constLLM
    (customer_lookup_tool "12345") "ghost" (by decide) (by decide)

/-- Claim C5 (code bug): `OutageAgent.interact` raises `NameError` on every
input because the assignment `user_info = state.get('user_info')` is
missing, so the outage handler never produces the claimed responses; the
billing and tech-support handlers do satisfy the claim — they ask for the
Account ID when `user_info` is absent, reference the service plan
(billing) and modem identifier (tech support) when it is present, and
neither carries a `user_info` key in its update. -/
theorem outage_agent_name_error :
    OutageAgent_interact verifiedQueryState
        = Except.error "NameError: name \x27user_info\x27 is not defined"
      ∧ (BillingAgent_interact verifiedQueryState).user_info = none
      ∧ pyIn (pyLower aliceRec.service_plan)
          (pyLower (msgContent ((BillingAgent_interact verifiedQueryState).messages.getLastD
            (Msg.human "")))) = true
      ∧ pyIn "account id"
          (pyLower (msgContent ((BillingAgent_interact unverifiedQueryState).messages.getLastD
            (Msg.human "")))) = true
      ∧ (TechSupportAgent_interact verifiedQueryState).user_info = none
      ∧ pyIn (pyLower aliceRec.modem_mac)
          (pyLower (msgContent ((TechSupportAgent_interact verifiedQueryState).messages.getLastD
            (Msg.human "")))) = true
      ∧ pyIn "account id"
          (pyLower (msgContent ((TechSupportAgent_interact unverifiedQueryState).messages.getLastD
            (Msg.human "")))) = true := by
  exact ⟨rfl, rfl, by decide, by decide, rfl, by decide, by decide⟩

/-- Counterexample to C6: the last conversation turn is an assistant
message containing the claimed closing phrase `"anything else"` and is not
a user turn, the routing model returns no tool call, yet the router
returns `END` — it inspected the routing response's own text (`"ok."`),
not the assistant's last conversation text as the claim states. -/
theorem router_fallback_counterexample :
    (match closingPhraseState.messages.getLast? with
     | some (Msg.ai c _) => containsAnyLower c claimed_closing_phrases
     | _ => false) = true
      ∧ isHumanMessage closingPhraseState.messages.getLast? = false
      ∧ route_request closingPhraseState plainSelection
          = { next_node := some (some END) } := by decide

/-- Claim C6 as amended: when the routing model's response carries no tool
call, the router returns `customer_interaction_agent` exactly when the
last conversation turn is from the user or the routing response's own text
contains a closing phrase (`"anything else"`, `"how else can i help"`,
`"need more help"`), and `END` otherwise. -/
theorem router_fallback_amended (state : AgentState) (ai : AIResp)
    (hai : ai.tool_calls = []) :
    ((route_request state (Except.ok ai)).next_node
        = some (some "customer_interaction_agent")
      ∨ (route_request state (Except.ok ai)).next_node = some (some END))
    ∧ ((route_request state (Except.ok ai)).next_node
          = some (some "customer_interaction_agent")
        ↔ (isHumanMessage state.messages.getLast?
            || containsAnyLower ai.content closing_phrases) = true) := by
  simp only [route_request, hai]
  by_cases h1 : isHumanMessage state.messages.getLast?
  · simp [h1]
  · by_cases h2 : containsAnyLower ai.content closing_phrases
    · simp [h1, h2]
    · simp [h1, h2, END]

/-- Witness for the amended C6: the no-tool-call response on
`closingPhraseState` yields one of the two fallback decisions. -/
theorem router_fallback_amended_witness :
    ((route_request closingPhraseState plainSelection).next_node
        = some (some "customer_interaction_agent")
      ∨ (route_request closingPhraseState plainSelection).next_node
          = some (some END)) :=
  (router_fallback_amended closingPhraseState
    { content := "ok.", tool_calls := [] } rfl).1

/-- Counterexample to C7: a raised model error inside the router is not
propagated — `route_request` swallows it and returns the routing decision
`customer_interaction_agent`. -/
theorem router_error_counterexample :
    route_request verifiedQueryState (Except.error "model call failed")
      = { next_node := some (some "customer_interaction_agent") } := by decide

/-- Claim C7 as amended: a failing model call in the Router is caught by
`route_request` and converted into the fallback decision
`customer_interaction_agent`; the returned update carries no messages and
no `user_info` key, so the session's messages and verified customer are
left unmodified and the same turn can be retried. -/
theorem router_error_fallback (state : AgentState) (e : String) :
    route_request state (Except.error e)
        = { next_node := some (some "customer_interaction_agent") }
      ∧ (applyUpdate state (route_request state (Except.error e))).messages
          = state.messages
      ∧ (applyUpdate state (route_request state (Except.error e))).user_info
          = state.user_info := by
  refine ⟨rfl, ?_, ?_⟩ <;> simp [route_request, applyUpdate]

/-- Claim C8: the message log is append-only — across any sequence of node
updates combined by the `operator.add` reducer, the prior `messages` list
stays a prefix of the resulting one (no reordering or truncation) and its
length never decreases. -/
theorem messages_append_only (s : AgentState) (us : List StateUpdate) :
    s.messages <+: (applyUpdates s us).messages
      ∧ s.messages.length ≤ (applyUpdates s us).messages.length := by
  have h : ∀ vs : List StateUpdate, ∀ t : AgentState,
      t.messages <+: (applyUpdates t vs).messages := by
    intro vs
    induction vs with
    | nil => intro t; simp [applyUpdates]
    | cons u us ih =>
        intro t
        have h1 : t.messages <+: (applyUpdate t u).messages := ⟨u.messages, rfl⟩
        have h2 := ih (applyUpdate t u)
        have h3 : applyUpdates t (u :: us) = applyUpdates (applyUpdate t u) us := rfl
        rw [h3]
        exact h1.trans h2
  exact ⟨h us s, (h us s).length_le⟩

/-- Claim C9: every core step function is deterministic — two runs from
identical session states with identical model and tool-executor responses
return identical state updates. -/
theorem core_steps_deterministic
    (s₁ s₂ : AgentState) (llm₁ llm₂ llmT₁ llmT₂ : Prompt → AIResp)
    (r₁ r₂ : Except String AIResp)
    (hs : s₁ = s₂) (hl : llm₁ = llm₂) (hlt : llmT₁ = llmT₂) (hr : r₁ = r₂) :
    interact s₁ llm₁ llmT₁ = interact s₂ llm₂ llmT₂
      ∧ route_request s₁ r₁ = route_request s₂ r₂
      ∧ decide_after_interaction s₁ = decide_after_interaction s₂
      ∧ BillingAgent_interact s₁ = BillingAgent_interact s₂
      ∧ TechSupportAgent_interact s₁ = TechSupportAgent_interact s₂
      ∧ OutageAgent_interact s₁ = OutageAgent_interact s₂ := by
  subst hs; subst hl; subst hlt; subst hr
  exact ⟨rfl, rfl, rfl, rfl, rfl, rfl⟩

/-- Witness for C9 at a concrete session state and concrete oracles. -/
theorem core_steps_deterministic_witness :
    interact successLookupState constLLM constLLM
        = interact successLookupState constLLM constLLM
      ∧ route_request successLookupState billingSelection
          = route_request successLookupState billingSelection
      ∧ decide_after_interaction successLookupState
          = decide_after_interaction successLookupState
      ∧ BillingAgent_interact successLookupState
          = BillingAgent_interact successLookupState
      ∧ TechSupportAgent_interact successLookupState
          = TechSupportAgent_interact successLookupState
      ∧ OutageAgent_interact successLookupState
          = OutageAgent_interact successLookupState :=
  core_steps_deterministic successLookupState successLookupState
    constLLM constLLM constLLM constLLM billingSelection billingSelection
    rfl rfl rfl rfl

/-- Claim C10: `route_request` is total over every model outcome (any
structured selection, free text, or a raised error) and always returns an
update whose `next_node` is one of the exact five labels the
conditional-edge mapping knows. -/
theorem route_request_total
    (state : AgentState) (resp : Except String AIResp)
    (_hne : state.messages ≠ []) :
    ∃ n, route_request state resp = { next_node := some (some n) }
      ∧ (n = "billing_agent" ∨ n = "tech_support_agent" ∨ n = "outage_agent"
          ∨ n = "customer_interaction_agent" ∨ n = END) := by
  cases resp with
  | error e => exact ⟨"customer_interaction_agent", rfl, by tauto⟩
  | ok ai =>
      cases hcalls : ai.tool_calls with
      | nil =>
          simp only [route_request, hcalls]
          split_ifs <;> exact ⟨_, rfl, by tauto⟩
      | cons tc rest =>
          simp only [route_request, hcalls]
          split_ifs <;> exact ⟨_, rfl, by tauto⟩

/-- Witness for C10 at a concrete non-empty session and a billing
selection. -/
theorem route_request_total_witness :
    ∃ n, route_request verifiedQueryState billingSelection
        = { next_node := some (some n) }
      ∧ (n = "billing_agent" ∨ n = "tech_support_agent" ∨ n = "outage_agent"
          ∨ n = "customer_interaction_agent" ∨ n = END) :=
  route_request_total verifiedQueryState billingSelection (by decide)

end ISPAgents
